import Mathlib

/-!
Shallow embedding of the secure kubectl-execution, websocket-streaming and
diagnostics subsystem of the `neuvector-demo` web application
(`app/core/kubectl.py`, `app/core/websocket_manager.py`, `app/api/websocket.py`,
`app/api/routes.py`, `app/config.py`), together with theorems settling the
specification claims about it.

External effects (spawned processes, the vendor HTTP API, websocket channels)
are modelled by explicit behaviour oracles; each operation returns its result
together with a trace of the observable events it performed (validations,
spawns, kills), so that ordering and "no process spawned" properties can be
stated directly.
-/

namespace NVDemo

/-! ## Configuration (`app/config.py`)

`NAMESPACE` and `NEUVECTOR_NAMESPACE` come from environment variables, so the
configuration is a parameter of the model.  `ALLOWED_KUBECTL_COMMANDS` is a
fixed literal set. -/

structure Config where
  demo_namespace : String := "neuvector-demo"
  neuvector_namespace : String := "neuvector"
  kubeconfig : Option String := some "/root/.kube/config-downstream"
  kubectl_timeout : Nat := 120
  neuvector_api_url : String := "https://neuvector-svc-controller.neuvector:10443"
deriving Repr, DecidableEq

/-- `ALLOWED_KUBECTL_COMMANDS` from `app/config.py` (a Python set literal). -/
def ALLOWED_KUBECTL_COMMANDS : List String :=
  ["get", "apply", "delete", "create", "exec", "wait", "describe", "logs"]

/-- `FORBIDDEN_NAMESPACE` from `app/config.py`. -/
def FORBIDDEN_NAMESPACE : String := "untrusted-namespace"

/-- `ALLOWED_NAMESPACES = {NAMESPACE, NEUVECTOR_NAMESPACE, "default", FORBIDDEN_NAMESPACE}`. -/
def Config.allowed_namespaces (c : Config) : List String :=
  [c.demo_namespace, c.neuvector_namespace, "default", FORBIDDEN_NAMESPACE]

/-! ## Python truthiness helpers

`x or y` on strings/Options treats `None` and `""` as falsy; `if ns:` likewise. -/

/-- Python `a or b` where `a` is an optional string (`None` and `""` are falsy). -/
def pyOrStr (a : Option String) (b : Option String) : Option String :=
  match a with
  | some s => if s = "" then b else some s
  | none => b

/-- Python `if s:` truthiness of an optional string: `some s` with `s` non-empty. -/
def pyStrTruthy (a : Option String) : Option String :=
  match a with
  | some s => if s = "" then none else some s
  | none => none

/-- Python `a or b` on an optional integer (`None` and `0` are falsy). -/
def pyOrNat (a : Option Nat) (b : Nat) : Nat :=
  match a with
  | some n => if n = 0 then b else n
  | none => b

/-! ## Validators (`app/core/kubectl.py` lines 27-49)

`POD_NAME_PATTERN = NAMESPACE_PATTERN = ^[a-z0-9]([-a-z0-9]*[a-z0-9])?$`.
The regex is equivalent to: the string is non-empty, every character is a
lowercase letter, digit or hyphen, and the first and last characters are not
hyphens.  Python `re`: `$` also matches just before one trailing newline, so
`pattern.match` additionally accepts such a string followed by a final `\n`. -/

def isLowerAlnum (c : Char) : Bool :=
  (Char.ofNat 97 ≤ c && c ≤ Char.ofNat 122) || (Char.ofNat 48 ≤ c && c ≤ Char.ofNat 57)

def isNameChar (c : Char) : Bool :=
  isLowerAlnum c || c = Char.ofNat 45

/-- The language of the core regex `^[a-z0-9]([-a-z0-9]*[a-z0-9])?$` (without
the trailing-newline allowance of Python `$`). -/
def matchesNameCore (cs : List Char) : Bool :=
  match cs.head?, cs.getLast? with
  | some h, some l => cs.all isNameChar && isLowerAlnum h && isLowerAlnum l
  | _, _ => false

/-- `bool(NAMESPACE_PATTERN.match s)` under Python `re` semantics (`$` matches
at the end of the string or just before a single trailing newline). -/
def pyPatternMatch (s : String) : Bool :=
  matchesNameCore s.toList ||
    (s.toList.getLast? = some (Char.ofNat 10) && matchesNameCore s.toList.dropLast)

/-- `validate_pod_name` (`app/core/kubectl.py` lines 31-35). -/
def validate_pod_name (name : String) : Bool :=
  if name = "" || name.length > 253 then false
  else pyPatternMatch name

/-- `validate_namespace` (`app/core/kubectl.py` lines 38-44): syntactic check
plus membership in `ALLOWED_NAMESPACES`. -/
def validate_namespace (c : Config) (ns : String) : Bool :=
  if ns = "" || ns.length > 63 then false
  else if !pyPatternMatch ns then false
  else decide (ns ∈ c.allowed_namespaces)

/-- `validate_command` (`app/core/kubectl.py` lines 47-49). -/
def validate_command (cmd : String) : Bool :=
  decide (cmd ∈ ALLOWED_KUBECTL_COMMANDS)

/-- C1 — `validate_namespace` is equivalent to the four-part conjunction the
specification states: non-empty, within the 63-character limit, matching the
name pattern, and a member of the configured allowed-namespace set. -/
theorem validate_namespace_iff (c : Config) (ns : String) :
    validate_namespace c ns = true ↔
      ns ≠ "" ∧ ns.length ≤ 63 ∧ pyPatternMatch ns = true ∧ ns ∈ c.allowed_namespaces := by
  unfold validate_namespace
  by_cases h1 : ns = ""
  · simp [h1]
  · by_cases h2 : ns.length > 63
    · simp only [h1, h2]
      simp
      omega
    · by_cases h3 : pyPatternMatch ns
      · simp [h1, h2, h3]
        omega
      · simp [h1, h2, h3]

/-! ## Process executor (`app/core/kubectl.py`, class `Kubectl`)

The spawned process is external, so its behaviour is an oracle.  Each
operation returns its result together with the list of observable events it
performed, in order. -/

/-- Error taxonomy of `app/core/kubectl.py`: `KubectlValidationError`
(a subclass of `KubectlError`), plain `KubectlError`, and an OS-level error
escaping from `asyncio.create_subprocess_exec` (not caught by `run`). -/
inductive KError where
  | validation (msg : String)
  | kubectl (msg : String)
  | oserror (msg : String)
deriving Repr, DecidableEq

/-- The exception class of an error (`KubectlValidationError` vs plain
`KubectlError` vs OS error): what a caller can distinguish with `except`. -/
def KError.kind : KError → Nat
  | .validation _ => 0
  | .kubectl _ => 1
  | .oserror _ => 2

/-- Observable events of one executor operation, in order. -/
inductive Event where
  | validatedCmd (cmd : String) (ok : Bool)
  | validatedNs (ns : String) (ok : Bool)
  | spawned (argv : List String)
  | killed
deriving Repr, DecidableEq

def countSpawns (tr : List Event) : Nat :=
  (tr.filter fun e => match e with | .spawned _ => true | _ => false).length

def countKills (tr : List Event) : Nat :=
  (tr.filter fun e => match e with | .killed => true | _ => false).length

/-- Behaviour of the external process in buffered mode (`Kubectl.run`). -/
inductive ProcBehavior where
  | spawnError (msg : String)
  | timeout
  | completes (stdout stderr : String) (returncode : Int)
deriving Repr, DecidableEq

/-- `Kubectl._build_base_command` (lines 59-64): `["kubectl"]` plus
`--kubeconfig` when configured (`self.kubeconfig` is falsy when `None` or `""`). -/
def build_base_command (kubeconfig : Option String) : List String :=
  match pyStrTruthy kubeconfig with
  | some k => ["kubectl", "--kubeconfig", k]
  | none => ["kubectl"]

/-- The guts of `Kubectl.run` after validation (lines 106-128): spawn, wait
with `asyncio.wait_for`, decode, `check` the exit code.  On timeout
`asyncio.TimeoutError` is re-raised as a plain `KubectlError`; nothing kills
the process (`asyncio.wait_for` only cancels the `communicate()` task). -/
def runSpawnPhase (cmd : List String) (timeoutS : Nat) (check : Bool)
    (proc : ProcBehavior) (evts : List Event) :
    Except KError (String × String × Int) × List Event :=
  match proc with
  | .spawnError m => (.error (.oserror m), evts)
  | .timeout =>
      (.error (.kubectl ("Command timed out after " ++ toString timeoutS ++ "s")),
       evts ++ [.spawned cmd])
  | .completes out err rc =>
      if check && rc ≠ 0 then
        (.error (.kubectl ("kubectl failed: " ++ err)), evts ++ [.spawned cmd])
      else
        (.ok (out, err, rc), evts ++ [.spawned cmd])

/-- `Kubectl.run` (lines 66-128).  `dns` is `self.default_namespace`.
Returns the result (or raised exception) and the event trace. -/
def Kubectl.run (c : Config) (dns : Option String) (args : List String)
    (nsArg : Option String) (timeoutArg : Option Nat) (check : Bool)
    (proc : ProcBehavior) : Except KError (String × String × Int) × List Event :=
  match args with
  | [] => (.error (.validation "No command specified"), [])
  | command :: _ =>
    if validate_command command = false then
      (.error (.validation ("Command '" ++ command ++ "' is not allowed")),
       [.validatedCmd command false])
    else
      let base := build_base_command c.kubeconfig
      let timeoutS := pyOrNat timeoutArg c.kubectl_timeout
      match pyStrTruthy (pyOrStr nsArg dns) with
      | some n =>
        if validate_namespace c n = false then
          (.error (.validation ("Namespace '" ++ n ++ "' is not allowed")),
           [.validatedCmd command true, .validatedNs n false])
        else
          runSpawnPhase (base ++ ["-n", n] ++ args) timeoutS check proc
            [.validatedCmd command true, .validatedNs n true]
      | none =>
          runSpawnPhase (base ++ args) timeoutS check proc
            [.validatedCmd command true]

/-- Behaviour of the external process in streaming mode: the lines delivered,
and how the stream ends (EOF, the wall-clock timeout firing, or the spawn
itself failing). -/
inductive StreamBehavior where
  | spawnError (msg : String)
  | linesEof (ls : List String)
  | linesTimeout (ls : List String)
deriving Repr, DecidableEq

/-- `Kubectl.run_streaming` (lines 130-187).  Validation failures raise
(`.error`); once spawned, every fault is converted into a yielded
`[ERROR] ...` line, so the stream itself never raises.  On timeout the
process is killed and one synthetic terminal line is yielded after the lines
already delivered. -/
def Kubectl.run_streaming (c : Config) (dns : Option String) (args : List String)
    (nsArg : Option String) (timeoutArg : Option Nat)
    (proc : StreamBehavior) : Except KError (List String) × List Event :=
  match args with
  | [] => (.error (.validation "No command specified"), [])
  | command :: _ =>
    if validate_command command = false then
      (.error (.validation ("Command '" ++ command ++ "' is not allowed")),
       [.validatedCmd command false])
    else
      let base := build_base_command c.kubeconfig
      let timeoutS := pyOrNat timeoutArg c.kubectl_timeout
      let streamPhase := fun (cmd : List String) (evts : List Event) =>
        match proc with
        | .spawnError m => (Except.ok ["[ERROR] " ++ m], evts)
        | .linesEof ls => (Except.ok ls, evts ++ [Event.spawned cmd])
        | .linesTimeout ls =>
            (Except.ok (ls ++ ["[ERROR] Command timed out after " ++ toString timeoutS ++ "s"]),
             evts ++ [Event.spawned cmd, Event.killed])
      match pyStrTruthy (pyOrStr nsArg dns) with
      | some n =>
        if validate_namespace c n = false then
          (.error (.validation ("Namespace '" ++ n ++ "' is not allowed")),
           [.validatedCmd command true, .validatedNs n false])
        else
          streamPhase (base ++ ["-n", n] ++ args)
            [.validatedCmd command true, .validatedNs n true]
      | none => streamPhase (base ++ args) [.validatedCmd command true]

/-- Result shape of `Kubectl.get_cluster_info` (lines 241-304). -/
structure ClusterInfo where
  context : String
  connected : Bool
  node_count : Nat
  errorMsg : Option String := none
deriving Repr, DecidableEq

/-- `Kubectl.get_cluster_info` (lines 241-304).  Spawns up to three processes
directly via `asyncio.create_subprocess_exec` with hard-coded argument
vectors (`config current-context`, `get namespace kube-system -o name`,
`get nodes -o name`) without calling any validator; all faults are caught.
`inCluster` is the service-account-token file test; the three `ProcBehavior`
oracles give the behaviour of the three possible spawns. -/
def Kubectl.get_cluster_info (c : Config) (inCluster : Bool)
    (contextProc nsProc nodesProc : ProcBehavior) : ClusterInfo × List Event :=
  let base := build_base_command c.kubeconfig
  let ctx0 := if inCluster then "in-cluster" else "unknown"
  let ctxStep : String × List Event :=
    if !inCluster && (pyStrTruthy c.kubeconfig).isSome then
      match contextProc with
      | .spawnError _ => (ctx0, [])
      | .timeout => (ctx0, [Event.spawned (base ++ ["config", "current-context"])])
      | .completes out _ rc =>
          (if rc = 0 && out ≠ "" then out.trim else ctx0,
           [Event.spawned (base ++ ["config", "current-context"])])
    else (ctx0, [])
  let ctx := ctxStep.1
  let tr1 := ctxStep.2
  let argvNs := base ++ ["get", "namespace", "kube-system", "-o", "name"]
  let argvNodes := base ++ ["get", "nodes", "-o", "name"]
  match nsProc with
  | .spawnError m =>
      ({ context := ctx, connected := false, node_count := 0, errorMsg := some m }, tr1)
  | .timeout =>
      ({ context := ctx, connected := false, node_count := 0, errorMsg := some "" },
       tr1 ++ [Event.spawned argvNs])
  | .completes _ _ rc =>
      if rc = 0 then
        match nodesProc with
        | .spawnError m =>
            ({ context := ctx, connected := false, node_count := 0, errorMsg := some m },
             tr1 ++ [Event.spawned argvNs])
        | .timeout =>
            ({ context := ctx, connected := false, node_count := 0, errorMsg := some "" },
             tr1 ++ [Event.spawned argvNs, Event.spawned argvNodes])
        | .completes out3 _ rc3 =>
            ({ context := ctx, connected := true,
               node_count := if rc3 = 0 && out3 ≠ "" then
                   ((out3.trim.splitOn "\n").filter (fun l => l ≠ "")).length
                 else 0,
               errorMsg := none },
             tr1 ++ [Event.spawned argvNs, Event.spawned argvNodes])
      else
        ({ context := ctx, connected := false, node_count := 0, errorMsg := none },
         tr1 ++ [Event.spawned argvNs])

/-! ## Trace property: spawns preceded by successful subcommand validation -/

def spawnGuardedGo : Bool → List Event → Bool
  | _, [] => true
  | seen, Event.validatedCmd _ ok :: rest => spawnGuardedGo (seen || ok) rest
  | seen, Event.spawned _ :: rest => seen && spawnGuardedGo seen rest
  | seen, _ :: rest => spawnGuardedGo seen rest

/-- Every `spawned` event in the trace comes after some successful
`validatedCmd` event. -/
def spawnGuarded (tr : List Event) : Bool := spawnGuardedGo false tr

/-! ## Claims C2-C5 -/

/-- C2 — an argument vector whose first element is not in the allowlist is
rejected by both `run` and `run_streaming` with a `KubectlValidationError`
before any process is spawned: the spawn count of both traces is zero. -/
theorem run_rejects_disallowed_command (c : Config) (dns : Option String)
    (cmd : String) (rest : List String) (nsArg : Option String)
    (tArg : Option Nat) (check : Bool) (proc : ProcBehavior)
    (sproc : StreamBehavior) (h : validate_command cmd = false) :
    (Kubectl.run c dns (cmd :: rest) nsArg tArg check proc).1 =
        Except.error (KError.validation ("Command '" ++ cmd ++ "' is not allowed"))
    ∧ countSpawns (Kubectl.run c dns (cmd :: rest) nsArg tArg check proc).2 = 0
    ∧ (Kubectl.run_streaming c dns (cmd :: rest) nsArg tArg sproc).1 =
        Except.error (KError.validation ("Command '" ++ cmd ++ "' is not allowed"))
    ∧ countSpawns (Kubectl.run_streaming c dns (cmd :: rest) nsArg tArg sproc).2 = 0 := by
  refine ⟨?_, ?_, ?_, ?_⟩ <;> simp [Kubectl.run, Kubectl.run_streaming, h, countSpawns]

/-- Witness for C2: the disallowed subcommand `"rm"` is rejected with no spawn. -/
theorem run_rejects_disallowed_command_witness :
    validate_command "rm" = false ∧
    ((Kubectl.run {} none ["rm", "-rf"] none none true (ProcBehavior.completes "" "" 0)).1 =
        Except.error (KError.validation ("Command '" ++ "rm" ++ "' is not allowed"))
      ∧ countSpawns (Kubectl.run {} none ["rm", "-rf"] none none true
          (ProcBehavior.completes "" "" 0)).2 = 0
      ∧ (Kubectl.run_streaming {} none ["rm", "-rf"] none none
          (StreamBehavior.linesEof [])).1 =
        Except.error (KError.validation ("Command '" ++ "rm" ++ "' is not allowed"))
      ∧ countSpawns (Kubectl.run_streaming {} none ["rm", "-rf"] none none
          (StreamBehavior.linesEof [])).2 = 0) :=
  ⟨by decide,
   run_rejects_disallowed_command {} none "rm" ["-rf"] none none true
     (ProcBehavior.completes "" "" 0) (StreamBehavior.linesEof []) (by decide)⟩

/-- The exception kind carried by a result, if it is an error. -/
def resultKind {α : Type} (r : Except KError α) : Option Nat :=
  match r with
  | .error e => some e.kind
  | .ok _ => none

/-- C3 counterexample — at the concrete request `get pods`, the timeout
failure of `run` has the same exception class (`KubectlError`) as the
non-zero-exit failure, and the timed-out process is never killed: the claimed
distinct error kind and forced termination both fail. -/
theorem run_timeout_counterexample :
    resultKind (Kubectl.run {} none ["get", "pods"] none none true ProcBehavior.timeout).1 =
      resultKind (Kubectl.run {} none ["get", "pods"] none none true
        (ProcBehavior.completes "" "boom" 1)).1
    ∧ countKills (Kubectl.run {} none ["get", "pods"] none none true ProcBehavior.timeout).2 = 0 := by
  constructor <;> rfl

/-- C3 amended — when `run` exceeds its timeout it raises a plain
`KubectlError` with message `Command timed out after {T}s`; this is the same
exception class as the non-zero-exit `KubectlError` (`kubectl failed: ...`),
so the two failures are distinguishable only by message text, and the
timed-out process is not killed. -/
theorem run_timeout_same_error_class (c : Config) (dns : Option String)
    (cmd : String) (rest : List String) (nsArg : Option String)
    (tArg : Option Nat) (out err : String) (rc : Int)
    (h1 : validate_command cmd = true)
    (h2 : ∀ n, pyStrTruthy (pyOrStr nsArg dns) = some n → validate_namespace c n = true)
    (h3 : rc ≠ 0) :
    (Kubectl.run c dns (cmd :: rest) nsArg tArg true ProcBehavior.timeout).1 =
        Except.error (KError.kubectl ("Command timed out after " ++
          toString (pyOrNat tArg c.kubectl_timeout) ++ "s"))
    ∧ countKills (Kubectl.run c dns (cmd :: rest) nsArg tArg true ProcBehavior.timeout).2 = 0
    ∧ (Kubectl.run c dns (cmd :: rest) nsArg tArg true (ProcBehavior.completes out err rc)).1 =
        Except.error (KError.kubectl ("kubectl failed: " ++ err))
    ∧ resultKind (Kubectl.run c dns (cmd :: rest) nsArg tArg true ProcBehavior.timeout).1 =
        resultKind (Kubectl.run c dns (cmd :: rest) nsArg tArg true
          (ProcBehavior.completes out err rc)).1 := by
  rcases hns : pyStrTruthy (pyOrStr nsArg dns) with _ | n
  · refine ⟨?_, ?_, ?_, ?_⟩ <;>
      simp [Kubectl.run, h1, hns, runSpawnPhase, h3, countKills, resultKind, KError.kind]
  · have hv := h2 n hns
    refine ⟨?_, ?_, ?_, ?_⟩ <;>
      simp [Kubectl.run, h1, hns, hv, runSpawnPhase, h3, countKills, resultKind, KError.kind]

/-- Witness for C3 amended: a concrete timed-out `get pods` next to a
concrete non-zero exit. -/
theorem run_timeout_same_error_class_witness :
    validate_command "get" = true ∧
    ((Kubectl.run {} none ["get", "pods"] none none true ProcBehavior.timeout).1 =
        Except.error (KError.kubectl ("Command timed out after " ++
          toString (pyOrNat none (Config.kubectl_timeout {})) ++ "s"))
      ∧ countKills (Kubectl.run {} none ["get", "pods"] none none true ProcBehavior.timeout).2 = 0
      ∧ (Kubectl.run {} none ["get", "pods"] none none true
          (ProcBehavior.completes "" "boom" 1)).1 =
        Except.error (KError.kubectl ("kubectl failed: " ++ "boom"))
      ∧ resultKind (Kubectl.run {} none ["get", "pods"] none none true ProcBehavior.timeout).1 =
        resultKind (Kubectl.run {} none ["get", "pods"] none none true
          (ProcBehavior.completes "" "boom" 1)).1) :=
  ⟨by decide,
   run_timeout_same_error_class {} none "get" ["pods"] none none "" "boom" 1
     (by decide) (by intro n hn; simp [pyOrStr, pyStrTruthy] at hn) (by decide)⟩

/-- C4 — when `run_streaming` times out mid-stream, it does not raise: the
lines already yielded are preserved as a prefix, exactly one synthetic
`[ERROR] Command timed out after {T}s` line is appended after them, and the
process is killed exactly once. -/
theorem run_streaming_timeout_single_terminal_line (c : Config) (dns : Option String)
    (cmd : String) (rest : List String) (nsArg : Option String)
    (tArg : Option Nat) (ls : List String)
    (h1 : validate_command cmd = true)
    (h2 : ∀ n, pyStrTruthy (pyOrStr nsArg dns) = some n → validate_namespace c n = true) :
    (Kubectl.run_streaming c dns (cmd :: rest) nsArg tArg (StreamBehavior.linesTimeout ls)).1 =
        Except.ok (ls ++ ["[ERROR] Command timed out after " ++
          toString (pyOrNat tArg c.kubectl_timeout) ++ "s"])
    ∧ countKills (Kubectl.run_streaming c dns (cmd :: rest) nsArg tArg
        (StreamBehavior.linesTimeout ls)).2 = 1 := by
  rcases hns : pyStrTruthy (pyOrStr nsArg dns) with _ | n
  · constructor <;> simp [Kubectl.run_streaming, h1, hns, countKills]
  · have hv := h2 n hns
    constructor <;> simp [Kubectl.run_streaming, h1, hns, hv, countKills]

/-- Witness for C4: a concrete `logs` stream that delivered two lines before
the timeout. -/
theorem run_streaming_timeout_single_terminal_line_witness :
    validate_command "logs" = true ∧
    ((Kubectl.run_streaming {} none ["logs", "pod-a"] none none
        (StreamBehavior.linesTimeout ["line one", "line two"])).1 =
        Except.ok (["line one", "line two"] ++ ["[ERROR] Command timed out after " ++
          toString (pyOrNat none (Config.kubectl_timeout {})) ++ "s"])
      ∧ countKills (Kubectl.run_streaming {} none ["logs", "pod-a"] none none
          (StreamBehavior.linesTimeout ["line one", "line two"])).2 = 1) :=
  ⟨by decide,
   run_streaming_timeout_single_terminal_line {} none "logs" ["pod-a"] none none
     ["line one", "line two"] (by decide)
     (by intro n hn; simp [pyOrStr, pyStrTruthy] at hn)⟩

/-- C5 counterexample — `get_cluster_info` spawns a process whose trace
contains no successful subcommand validation at all: the hard-coded
`kubectl config current-context` invocation is spawned with no validator
call, and its subcommand `config` is not even in the allowlist. -/
theorem get_cluster_info_unvalidated_spawn :
    spawnGuarded (Kubectl.get_cluster_info {} false (ProcBehavior.completes "ctx" "" 0)
        (ProcBehavior.completes "namespace/kube-system" "" 0)
        (ProcBehavior.completes "node/n1" "" 0)).2 = false
    ∧ Event.spawned ["kubectl", "--kubeconfig", "/root/.kube/config-downstream",
        "config", "current-context"] ∈
        (Kubectl.get_cluster_info {} false (ProcBehavior.completes "ctx" "" 0)
          (ProcBehavior.completes "namespace/kube-system" "" 0)
          (ProcBehavior.completes "node/n1" "" 0)).2
    ∧ validate_command "config" = false := by
  refine ⟨by rfl, by decide, by decide⟩

/-- C5 amended — every process spawned through the two executor primitives
`run` and `run_streaming` is preceded in the trace by a successful allowlist
validation of its subcommand; the direct spawns of `get_cluster_info` (and of
the diagnostic probe helpers) are outside this guarantee. -/
theorem run_spawns_are_validated (c : Config) (dns : Option String)
    (args : List String) (nsArg : Option String) (tArg : Option Nat)
    (check : Bool) (proc : ProcBehavior) (sproc : StreamBehavior) :
    spawnGuarded (Kubectl.run c dns args nsArg tArg check proc).2 = true
    ∧ spawnGuarded (Kubectl.run_streaming c dns args nsArg tArg sproc).2 = true := by
  constructor
  · match args with
    | [] => simp [Kubectl.run, spawnGuarded, spawnGuardedGo]
    | cmd :: rest =>
      rcases hv : validate_command cmd with _ | _
      · simp [Kubectl.run, hv, spawnGuarded, spawnGuardedGo]
      · rcases hns : pyStrTruthy (pyOrStr nsArg dns) with _ | n
        · cases proc <;>
            simp [Kubectl.run, hv, hns, runSpawnPhase, spawnGuarded, spawnGuardedGo,
              apply_ite Prod.snd]
        · rcases hvn : validate_namespace c n with _ | _
          · simp [Kubectl.run, hv, hns, hvn, spawnGuarded, spawnGuardedGo]
          · cases proc <;>
              simp [Kubectl.run, hv, hns, hvn, runSpawnPhase, spawnGuarded, spawnGuardedGo,
                apply_ite Prod.snd]
  · match args with
    | [] => simp [Kubectl.run_streaming, spawnGuarded, spawnGuardedGo]
    | cmd :: rest =>
      rcases hv : validate_command cmd with _ | _
      · simp [Kubectl.run_streaming, hv, spawnGuarded, spawnGuardedGo]
      · rcases hns : pyStrTruthy (pyOrStr nsArg dns) with _ | n
        · cases sproc <;>
            simp [Kubectl.run_streaming, hv, hns, spawnGuarded, spawnGuardedGo]
        · rcases hvn : validate_namespace c n with _ | _
          · simp [Kubectl.run_streaming, hv, hns, hvn, spawnGuarded, spawnGuardedGo]
          · cases sproc <;>
              simp [Kubectl.run_streaming, hv, hns, hvn, spawnGuarded, spawnGuardedGo]

/-! ## Session manager (`app/core/websocket_manager.py`, class `ConnectionManager`)

`active_connections` is a dict from client id to websocket channel.  The only
behaviour of a channel visible to the manager is whether `send_json` raises,
so a channel is modelled by that single `broken` bit.  The table is an
association list with the dict's insertion order and unique keys. -/

abbrev ConnTable := List (String × Bool)

/-- Dict lookup `active_connections[client_id]` / `client_id in active_connections`. -/
def lookupConn : ConnTable → String → Option Bool
  | [], _ => none
  | (k, w) :: rest, cid => if k = cid then some w else lookupConn rest cid

/-- `ConnectionManager.connect` (lines 15-18): dict assignment — overwrites an
existing binding in place, otherwise appends. -/
def ConnectionManager.connect (t : ConnTable) (cid : String) (broken : Bool) : ConnTable :=
  if (lookupConn t cid).isSome then
    t.map (fun p => if p.1 = cid then (cid, broken) else p)
  else t ++ [(cid, broken)]

/-- `ConnectionManager.disconnect` (lines 20-23): `del` of the binding when
present; idempotent. -/
def ConnectionManager.disconnect (t : ConnTable) (cid : String) : ConnTable :=
  t.filter (fun p => p.1 ≠ cid)

/-- `ConnectionManager.send_message` (lines 25-31): if the id is present, try
`send_json`; on failure call `disconnect`.  Returns the new table and whether
the message was delivered. -/
def ConnectionManager.send_message (t : ConnTable) (cid : String) : ConnTable × Bool :=
  match lookupConn t cid with
  | none => (t, false)
  | some broken =>
      if broken then (ConnectionManager.disconnect t cid, false) else (t, true)

/-- `ConnectionManager.broadcast` (lines 64-74): send to every entry, collect
the ids whose send failed, then disconnect each of them. -/
def ConnectionManager.broadcast (t : ConnTable) : ConnTable :=
  let disconnected := (t.filter (fun p => p.2)).map Prod.fst
  disconnected.foldl ConnectionManager.disconnect t

/-- After `disconnect`, the id is gone from the table. -/
theorem lookupConn_disconnect (t : ConnTable) (cid : String) :
    lookupConn (ConnectionManager.disconnect t cid) cid = none := by
  induction t with
  | nil => rfl
  | cons p rest ih =>
    obtain ⟨k, w⟩ := p
    by_cases h : k = cid
    · simpa [ConnectionManager.disconnect, h] using ih
    · simp only [ConnectionManager.disconnect, ne_eq, decide_not] at ih ⊢
      simp [List.filter, h, lookupConn, ih]

/-- C7 counterexample — a send operation does not always leave the table
unchanged: sending to a present client whose channel is broken removes that
client from the table. -/
theorem send_message_mutates_counterexample :
    (ConnectionManager.send_message [("client-a", true)] "client-a").1 ≠
      [("client-a", true)] := by decide

/-- C7 amended — the table is mutated by `connect`, `disconnect`, and by a
send whose delivery fails (the broken entry is removed); a send to an absent
or just-removed id is a no-op that leaves the table unchanged, and a send
over a healthy channel also leaves the table unchanged. -/
theorem send_message_table_effect (t : ConnTable) (cid : String) :
    (lookupConn t cid = none → ConnectionManager.send_message t cid = (t, false))
    ∧ (lookupConn t cid = some false → ConnectionManager.send_message t cid = (t, true))
    ∧ (lookupConn t cid = some true →
        (ConnectionManager.send_message t cid).1 = ConnectionManager.disconnect t cid)
    ∧ ConnectionManager.send_message (ConnectionManager.disconnect t cid) cid =
        (ConnectionManager.disconnect t cid, false) := by
  refine ⟨?_, ?_, ?_, ?_⟩
  · intro h; simp [ConnectionManager.send_message, h]
  · intro h; simp [ConnectionManager.send_message, h]
  · intro h; simp [ConnectionManager.send_message, h]
  · simp [ConnectionManager.send_message, lookupConn_disconnect]

/-- Witness for C7 amended: removing a broken client and the no-op send to a
just-removed id, at a concrete two-client table. -/
theorem send_message_table_effect_witness :
    lookupConn [("client-a", true), ("client-b", false)] "client-a" = some true ∧
    (ConnectionManager.send_message [("client-a", true), ("client-b", false)] "client-a").1 =
      ConnectionManager.disconnect [("client-a", true), ("client-b", false)] "client-a" :=
  ⟨by decide,
   (send_message_table_effect [("client-a", true), ("client-b", false)] "client-a").2.2.1
     (by decide)⟩

/-! ## Websocket endpoint (`app/api/websocket.py`, `websocket_endpoint`)

One loop iteration handles one inbound message and sends a sequence of
frames.  The demo registry lookup, parameter validation and the executed
operation are collaborators, modelled by oracles: `demoFound` and
`paramError` give the registry/validation outcome, and `ExecBehavior` gives
the lines the executed operation streams plus an optional internal fault
raised after them. -/

inductive Frame where
  | status (status message : String)
  | output (data : String)
  | error (data : String)
  | complete (success : Bool) (message : String)
deriving Repr, DecidableEq

/-- Behaviour of the executed operation inside the `try` block: the output
lines it yields, then either normal completion (`fault = none`) or an
exception with message `e` (`fault = some e`). -/
structure ExecBehavior where
  lines : List String
  fault : Option String
deriving Repr, DecidableEq

/-- The terminal frames of the `try`/`except` tail: `send_complete(True)` on
success, `send_error(str(e))` followed by `send_complete(False, str(e))` on an
exception. -/
def execTerminal (beh : ExecBehavior) : List Frame :=
  match beh.fault with
  | none => [Frame.complete true ""]
  | some e => [Frame.error e, Frame.complete false e]

/-- Frames produced by streaming the operation then terminating. -/
def execFrames (beh : ExecBehavior) : List Frame :=
  beh.lines.map Frame.output ++ execTerminal beh

/-- The frames sent after the initial status frame, by action
(`app/api/websocket.py` lines 45-93). -/
def handleBody (a : String) (demoId? : Option String) (demoFound : Bool)
    (paramError : Option String) (beh : ExecBehavior) : List Frame :=
  if a = "prepare" || a = "reset" || a = "status" then execFrames beh
  else if a = "demo" then
    match pyStrTruthy demoId? with
    | none => [Frame.error "No demo_id specified"]
    | some did =>
      if demoFound = false then [Frame.error ("Demo '" ++ did ++ "' not found")]
      else
        match paramError with
        | some e => [Frame.error e]
        | none => execFrames beh
  else [Frame.error ("Unknown action: " ++ a)]

/-- One loop iteration of `websocket_endpoint` (lines 34-93): the full frame
sequence the client observes for one inbound message. -/
def handleMessage (action? demoId? : Option String) (demoFound : Bool)
    (paramError : Option String) (beh : ExecBehavior) : List Frame :=
  match pyStrTruthy action? with
  | none => [Frame.error "No action specified"]
  | some a =>
      Frame.status "running" ("Starting " ++ a ++ "...") ::
        handleBody a demoId? demoFound paramError beh

def isTerminalFrame : Frame → Bool
  | .error _ => true
  | .complete _ _ => true
  | _ => false

def isSingleError : List Frame → Bool
  | [Frame.error _] => true
  | _ => false

/-- C6 counterexample — on an internal fault the handler emits two frames of
terminal type for one action (an `error` then a `complete`), so "exactly one
terminal frame, never more than one per action" fails at this concrete input. -/
theorem handler_two_terminal_frames_counterexample :
    ((handleMessage (some "status") none false none ⟨[], some "boom"⟩).filter
        isTerminalFrame).length = 2 := by decide

/-- C6 amended — for every inbound message carrying a (truthy) action, the
client observes exactly one status frame first; the rest is either a single
error frame (unknown action or demo-lookup/validation failure) or the
executed operation's output frames in production order followed by its
terminal frames: exactly one `complete(success=true)` on success, and on an
internal fault an `error` frame followed by a `complete(success=false)` —
two terminal-type frames, so a terminal is always emitted but not uniquely. -/
theorem handler_frame_order (action? demoId? : Option String) (demoFound : Bool)
    (paramError : Option String) (beh : ExecBehavior) (a : String)
    (h : pyStrTruthy action? = some a) :
    handleMessage action? demoId? demoFound paramError beh =
      Frame.status "running" ("Starting " ++ a ++ "...") ::
        handleBody a demoId? demoFound paramError beh
    ∧ (isSingleError (handleBody a demoId? demoFound paramError beh) = true
        ∨ handleBody a demoId? demoFound paramError beh = execFrames beh)
    ∧ (execFrames beh).filter isTerminalFrame = execTerminal beh := by
  refine ⟨by simp [handleMessage, h], ?_, ?_⟩
  · unfold handleBody
    by_cases h1 : (decide (a = "prepare") || decide (a = "reset") || decide (a = "status")) = true
    · rw [if_pos h1]; right; rfl
    · rw [if_neg h1]
      by_cases h2 : a = "demo"
      · rw [if_pos h2]
        rcases hd : pyStrTruthy demoId? with _ | did
        · left; rfl
        · rcases hf : demoFound with _ | _
          · left; rfl
          · rcases hp : paramError with _ | e
            · right; rfl
            · left; rfl
      · rw [if_neg h2]; left; rfl
  · unfold execFrames
    rw [List.filter_append]
    have houts : (beh.lines.map Frame.output).filter isTerminalFrame = [] := by
      induction beh.lines with
      | nil => rfl
      | cons x xs ih => simp [isTerminalFrame, ih]
    rw [houts]
    rcases hf : beh.fault with _ | e <;> simp [execTerminal, hf, isTerminalFrame]

/-- Witness for C6 amended: a concrete `demo` run that streams two lines and
completes successfully. -/
theorem handler_frame_order_witness :
    pyStrTruthy (some "demo") = some "demo" ∧
    (handleMessage (some "demo") (some "dlp") true none ⟨["l1", "l2"], none⟩ =
        Frame.status "running" ("Starting " ++ "demo" ++ "...") ::
          handleBody "demo" (some "dlp") true none ⟨["l1", "l2"], none⟩
      ∧ (isSingleError (handleBody "demo" (some "dlp") true none ⟨["l1", "l2"], none⟩) = true
          ∨ handleBody "demo" (some "dlp") true none ⟨["l1", "l2"], none⟩ =
              execFrames ⟨["l1", "l2"], none⟩)
      ∧ (execFrames ⟨["l1", "l2"], none⟩).filter isTerminalFrame =
          execTerminal ⟨["l1", "l2"], none⟩) :=
  ⟨by decide,
   handler_frame_order (some "demo") (some "dlp") true none ⟨["l1", "l2"], none⟩ "demo"
     (by decide)⟩

/-! ## Diagnostics (`app/api/routes.py` lines 1378-1908)

Each `_check_*` probe talks to an external system (a spawned kubectl process
or the vendor HTTP API); its input is therefore an oracle: either the value
the external call produced or the message of the exception it raised.  Every
probe catches its own faults and returns a `DiagnosticCheck`. -/

inductive DiagnosticStatus where
  | ok
  | warning
  | error
  | pending
deriving Repr, DecidableEq

structure DiagnosticCheck where
  id : String
  name : String
  category : String
  status : DiagnosticStatus
  message : String
  details : Option String := none
deriving Repr, DecidableEq

structure DiagnosticsSummary where
  total : Nat
  ok : Nat
  warning : Nat
  error : Nat
deriving Repr, DecidableEq

structure DiagnosticsResponse where
  success : Bool
  checks : List DiagnosticCheck
  summary : DiagnosticsSummary
  message : String := ""
deriving Repr, DecidableEq

/-! ### String helpers mirroring Python built-ins -/

def charsStartWith : List Char → List Char → Bool
  | [], _ => true
  | _ :: _, [] => false
  | n :: ns, h :: hs => n = h && charsStartWith ns hs

def charsContain (needle : List Char) : List Char → Bool
  | [] => charsStartWith needle []
  | h :: hs => charsStartWith needle (h :: hs) || charsContain needle hs

/-- Python `needle in hay` on strings (substring containment). -/
def strContains (hay needle : String) : Bool :=
  charsContain needle.toList hay.toList

/-- Python `s.split()`: split on whitespace runs, dropping empty pieces. -/
def pySplitWs (s : String) : List String :=
  (s.split Char.isWhitespace).filter (fun t => t ≠ "")

/-- `stdout.decode().strip().split() if stdout else []`. -/
def podNamesOf (out : String) : List String :=
  if out = "" then [] else pySplitWs out.trim

/-! ### Individual probes -/

/-- `_check_kubernetes_cluster` (lines 1418-1449): status from the
`get_cluster_info` outcome. -/
def check_kubernetes_cluster (r : Except String ClusterInfo) : DiagnosticCheck :=
  match r with
  | .ok info =>
    if info.connected then
      { id := "kubernetes", name := "Kubernetes Cluster", category := "Infrastructure",
        status := .ok, message := "Connected to " ++ info.context,
        details := some (toString info.node_count ++ " node(s)") }
    else
      { id := "kubernetes", name := "Kubernetes Cluster", category := "Infrastructure",
        status := .error, message := "Cannot connect to cluster",
        details := some (info.errorMsg.getD "Connection failed") }
  | .error e =>
      { id := "kubernetes", name := "Kubernetes Cluster", category := "Infrastructure",
        status := .error, message := "Cluster check failed", details := some e }

/-- Outcome of `api.authenticate()`. -/
inductive AuthOutcome where
  | success
  | apiError (msg : String)
  | exn (msg : String)
deriving Repr, DecidableEq

/-- `_check_neuvector_api` (lines 1452-1499): returns the check and whether an
authenticated API client is available for phase 3 (`api is not None`). -/
def check_neuvector_api (c : Config) (_username password : String)
    (auth : AuthOutcome) : DiagnosticCheck × Bool :=
  if password = "" then
    ({ id := "neuvector-api", name := "NeuVector API", category := "Infrastructure",
       status := .error, message := "No credentials provided",
       details := some "Configure API credentials in settings" }, false)
  else
    match auth with
    | .success =>
        ({ id := "neuvector-api", name := "NeuVector API", category := "Infrastructure",
           status := .ok, message := "Connected and authenticated",
           details := some c.neuvector_api_url }, true)
    | .apiError e =>
        ({ id := "neuvector-api", name := "NeuVector API", category := "Infrastructure",
           status := .error, message := "Authentication failed", details := some e }, false)
    | .exn e =>
        ({ id := "neuvector-api", name := "NeuVector API", category := "Infrastructure",
           status := .error, message := "Connection failed", details := some e }, false)

/-- Outcome of one directly spawned probe process. -/
inductive ProcOutcome where
  | done (stdout stderr : String) (rc : Int)
  | exn (msg : String)
deriving Repr, DecidableEq

/-- `_check_demo_namespace` (lines 1502-1540). -/
def check_demo_namespace (c : Config) (p : ProcOutcome) : DiagnosticCheck :=
  match p with
  | .done _ _ rc =>
    if rc = 0 then
      { id := "demo-namespace", name := "Demo Namespace", category := "Environment",
        status := .ok, message := "Namespace '" ++ c.demo_namespace ++ "' exists" }
    else
      { id := "demo-namespace", name := "Demo Namespace", category := "Environment",
        status := .error, message := "Namespace '" ++ c.demo_namespace ++ "' not found",
        details := some "Run 'Prepare' to create it" }
  | .exn e =>
      { id := "demo-namespace", name := "Demo Namespace", category := "Environment",
        status := .error, message := "Namespace check failed", details := some e }

/-- The expected demo pods of `_check_demo_pods`. -/
def expectedPods : List String := ["espion1", "cible1"]

def foundPods (pod_names : List String) : List String :=
  expectedPods.filter (fun e => pod_names.any (fun n => strContains n e))

def missingPods (pod_names : List String) : List String :=
  expectedPods.filter (fun e => !pod_names.any (fun n => strContains n e))

/-- `_check_demo_pods` (lines 1543-1614). -/
def check_demo_pods (p : ProcOutcome) : DiagnosticCheck :=
  match p with
  | .done out err rc =>
    if rc ≠ 0 then
      { id := "demo-pods", name := "Demo Pods", category := "Environment",
        status := .error, message := "Cannot list pods",
        details := some (if err = "" then "Unknown error" else err) }
    else if (foundPods (podNamesOf out)).length = expectedPods.length then
      { id := "demo-pods", name := "Demo Pods", category := "Environment",
        status := .ok,
        message := "All pods found (" ++ toString (foundPods (podNamesOf out)).length ++
          "/" ++ toString expectedPods.length ++ ")",
        details := some (String.intercalate ", " (foundPods (podNamesOf out))) }
    else if (foundPods (podNamesOf out)).length > 0 then
      { id := "demo-pods", name := "Demo Pods", category := "Environment",
        status := .warning,
        message := "Some pods missing (" ++ toString (foundPods (podNamesOf out)).length ++
          "/" ++ toString expectedPods.length ++ ")",
        details := some ("Missing: " ++ String.intercalate ", " (missingPods (podNamesOf out))) }
    else
      { id := "demo-pods", name := "Demo Pods", category := "Environment",
        status := .error, message := "No demo pods found",
        details := some "Run 'Prepare' to deploy them" }
  | .exn e =>
      { id := "demo-pods", name := "Demo Pods", category := "Environment",
        status := .error, message := "Pod check failed", details := some e }

/-- The effective membership test of the `_check_neuvector_groups` loop body:
the first `found` assignment in the source is dead code, immediately
overwritten by the simpler check `pod_name in name and NAMESPACE in name`. -/
def groupFound (c : Config) (group_names : List String) (podName : String) : Bool :=
  group_names.any (fun n => strContains n podName && strContains n c.demo_namespace)

/-- `pod_name = expected.split(".")[1]` applied to the two expected groups. -/
def expectedGroupPods : List String := ["espion1", "cible1"]

def foundGroups (c : Config) (group_names : List String) : List String :=
  expectedGroupPods.filter (groupFound c group_names)

def missingGroups (c : Config) (group_names : List String) : List String :=
  expectedGroupPods.filter (fun p => !groupFound c group_names p)

/-- `_check_neuvector_groups` (lines 1617-1674). -/
def check_neuvector_groups (c : Config) (r : Except String (List String)) : DiagnosticCheck :=
  match r with
  | .ok group_names =>
    if (foundGroups c group_names).length = expectedGroupPods.length then
      { id := "neuvector-groups", name := "NeuVector Groups", category := "NeuVector Config",
        status := .ok,
        message := "Groups exist (" ++ toString (foundGroups c group_names).length ++
          "/" ++ toString expectedGroupPods.length ++ ")",
        details := some (String.intercalate ", " (foundGroups c group_names)) }
    else if (foundGroups c group_names).length > 0 then
      { id := "neuvector-groups", name := "NeuVector Groups", category := "NeuVector Config",
        status := .warning,
        message := "Some groups missing (" ++ toString (foundGroups c group_names).length ++
          "/" ++ toString expectedGroupPods.length ++ ")",
        details := some ("Missing: " ++ String.intercalate ", " (missingGroups c group_names)) }
    else
      { id := "neuvector-groups", name := "NeuVector Groups", category := "NeuVector Config",
        status := .error, message := "No demo groups found",
        details := some "Pods may not be detected by NeuVector yet" }
  | .error e =>
      { id := "neuvector-groups", name := "NeuVector Groups", category := "NeuVector Config",
        status := .error, message := "Groups check failed", details := some e }

/-- One demo group as seen by `_check_process_profiles`: the number of learned
process rules in its profile, or the message of the exception the profile
fetch raised (silently skipped by the loop). -/
abbrev GroupProfileOutcome := Except String Nat

/-- `(groups_with_rules, total_rules)` accumulated by the loop. -/
def profileCounts (gs : List GroupProfileOutcome) : Nat × Nat :=
  gs.foldl
    (fun acc g =>
      match g with
      | Except.ok n => if n ≠ 0 then (acc.1 + 1, acc.2 + n) else acc
      | Except.error _ => acc)
    (0, 0)

/-- `_check_process_profiles` (lines 1677-1731). -/
def check_process_profiles (r : Except String (List GroupProfileOutcome)) : DiagnosticCheck :=
  match r with
  | .ok groups =>
    if groups.isEmpty then
      { id := "process-profiles", name := "Process Profiles", category := "NeuVector Config",
        status := .warning, message := "No groups to check",
        details := some "Deploy demo pods first" }
    else if (profileCounts groups).1 > 0 then
      { id := "process-profiles", name := "Process Profiles", category := "NeuVector Config",
        status := .ok, message := toString (profileCounts groups).2 ++ " rules learned",
        details := some ("Across " ++ toString (profileCounts groups).1 ++ " group(s)") }
    else
      { id := "process-profiles", name := "Process Profiles", category := "NeuVector Config",
        status := .warning, message := "No rules learned yet",
        details := some "Wait for discovery or trigger activity" }
  | .error e =>
      { id := "process-profiles", name := "Process Profiles", category := "NeuVector Config",
        status := .error, message := "Profile check failed", details := some e }

/-- The demo DLP sensors `_check_dlp_sensors` looks for. -/
def demoSensors : List String := ["sensor.creditcard", "sensor.ssn"]

/-- `_check_dlp_sensors` (lines 1734-1779), over the sensor name list. -/
def check_dlp_sensors (r : Except String (List String)) : DiagnosticCheck :=
  match r with
  | .ok sensors =>
    if sensors = [] then
      { id := "dlp-sensors", name := "DLP Sensors", category := "NeuVector Config",
        status := .warning, message := "No DLP sensors found",
        details := some "DLP features may not work" }
    else if demoSensors.filter (fun s => sensors.contains s) ≠ [] then
      { id := "dlp-sensors", name := "DLP Sensors", category := "NeuVector Config",
        status := .ok, message := toString sensors.length ++ " sensors available",
        details := some ("Demo sensors: " ++
          String.intercalate ", " (demoSensors.filter (fun s => sensors.contains s))) }
    else
      { id := "dlp-sensors", name := "DLP Sensors", category := "NeuVector Config",
        status := .warning, message := toString sensors.length ++ " sensors (no demo sensors)",
        details := some "Create custom sensors if needed" }
  | .error e =>
      { id := "dlp-sensors", name := "DLP Sensors", category := "NeuVector Config",
        status := .error, message := "DLP check failed", details := some e }

/-- `_check_admission_control` (lines 1782-1815), over `(enable, mode)`. -/
def check_admission_control (r : Except String (Bool × String)) : DiagnosticCheck :=
  match r with
  | .ok st =>
    if st.1 then
      { id := "admission-control", name := "Admission Control", category := "NeuVector Config",
        status := .ok, message := "Enabled (" ++ st.2 ++ " mode)" }
    else
      { id := "admission-control", name := "Admission Control", category := "NeuVector Config",
        status := .warning, message := "Disabled",
        details := some "Enable for admission control demos" }
  | .error e =>
      { id := "admission-control", name := "Admission Control", category := "NeuVector Config",
        status := .error, message := "Admission check failed", details := some e }

/-! ### The orchestrator `run_diagnostics` (lines 1818-1908)

Every probe catches its own exceptions, so after phase 1 the only `await`
inside the big `try` that can still raise is the cleanup
(`api.logout()` swallows its own errors, but `api.close()` delegates to the
external HTTP client's `aclose()`); `cleanupFault` is that oracle.  The
cleanup runs only when an authenticated API client exists, and it runs
*after* `checks.extend(nv_checks)`, so on that fault the `except` branch
returns the full check list with the all-zero summary. -/

structure DiagOracles where
  k8s : Except String ClusterInfo
  username : String
  password : String
  auth : AuthOutcome
  nsProc : ProcOutcome
  podsProc : ProcOutcome
  groups : Except String (List String)
  profiles : Except String (List GroupProfileOutcome)
  dlp : Except String (List String)
  admission : Except String (Bool × String)
  cleanupFault : Option String
deriving Repr

/-- One diagnostics run: the HTTP response plus bookkeeping of whether the
orchestrator's `except` branch was taken and which Environment probes were
actually invoked. -/
structure DiagRun where
  response : DiagnosticsResponse
  faulted : Bool
  nsProbeInvoked : Bool
  podsProbeInvoked : Bool
deriving Repr, DecidableEq

/-- The two placeholder checks appended when phase 2 is skipped (lines 1842-1855). -/
def skipEnvChecks : List DiagnosticCheck :=
  [{ id := "demo-namespace", name := "Demo Namespace", category := "Environment",
     status := .error, message := "Skipped (K8s unavailable)" },
   { id := "demo-pods", name := "Demo Pods", category := "Environment",
     status := .error, message := "Skipped (K8s unavailable)" }]

/-- The four placeholder checks appended when phase 3 is skipped (lines 1871-1884). -/
def skipNvChecks : List DiagnosticCheck :=
  [{ id := "neuvector-groups", name := "NeuVector Groups", category := "NeuVector Config",
     status := .error, message := "Skipped (API unavailable)" },
   { id := "process-profiles", name := "Process Profiles", category := "NeuVector Config",
     status := .error, message := "Skipped (API unavailable)" },
   { id := "dlp-sensors", name := "DLP Sensors", category := "NeuVector Config",
     status := .error, message := "Skipped (API unavailable)" },
   { id := "admission-control", name := "Admission Control", category := "NeuVector Config",
     status := .error, message := "Skipped (API unavailable)" }]

/-- Phase 1 and phase 2 checks in order (lines 1825-1855). -/
def phase12Checks (c : Config) (o : DiagOracles) : List DiagnosticCheck :=
  check_kubernetes_cluster o.k8s ::
    (check_neuvector_api c o.username o.password o.auth).1 ::
      (if (check_kubernetes_cluster o.k8s).status = DiagnosticStatus.error then skipEnvChecks
       else [check_demo_namespace c o.nsProc, check_demo_pods o.podsProc])

/-- Phase 3 checks in order (lines 1857-1884). -/
def phase3Checks (c : Config) (o : DiagOracles) : List DiagnosticCheck :=
  if (check_neuvector_api c o.username o.password o.auth).2 then
    [check_neuvector_groups c o.groups, check_process_profiles o.profiles,
     check_dlp_sensors o.dlp, check_admission_control o.admission]
  else skipNvChecks

def allChecks (c : Config) (o : DiagOracles) : List DiagnosticCheck :=
  phase12Checks c o ++ phase3Checks c o

def countStatus (s : DiagnosticStatus) (cs : List DiagnosticCheck) : Nat :=
  (cs.filter (fun ch => ch.status = s)).length

/-- The summary built at lines 1886-1892. -/
def mkSummary (cs : List DiagnosticCheck) : DiagnosticsSummary :=
  { total := cs.length,
    ok := countStatus DiagnosticStatus.ok cs,
    warning := countStatus DiagnosticStatus.warning cs,
    error := countStatus DiagnosticStatus.error cs }

/-- `run_diagnostics` (lines 1818-1908). -/
def run_diagnostics (c : Config) (o : DiagOracles) : DiagRun :=
  let envInvoked :=
    if (check_kubernetes_cluster o.k8s).status = DiagnosticStatus.error then false else true
  let cs := allChecks c o
  match (check_neuvector_api c o.username o.password o.auth).2, o.cleanupFault with
  | true, some e =>
      { response := { success := false, checks := cs,
                      summary := { total := 0, ok := 0, warning := 0, error := 0 },
                      message := "Diagnostics failed: " ++ e },
        faulted := true, nsProbeInvoked := envInvoked, podsProbeInvoked := envInvoked }
  | _, _ =>
      { response := { success := true, checks := cs, summary := mkSummary cs, message := "" },
        faulted := false, nsProbeInvoked := envInvoked, podsProbeInvoked := envInvoked }

/-! ### Shape lemmas: every probe has a fixed id and never returns `pending` -/

theorem check_kubernetes_cluster_shape (r : Except String ClusterInfo) :
    (check_kubernetes_cluster r).id = "kubernetes" ∧
    (check_kubernetes_cluster r).status ≠ DiagnosticStatus.pending := by
  cases r with
  | error e => simp [check_kubernetes_cluster]
  | ok info =>
    simp only [check_kubernetes_cluster]
    split_ifs <;> simp

theorem check_neuvector_api_shape (c : Config) (u p : String) (a : AuthOutcome) :
    (check_neuvector_api c u p a).1.id = "neuvector-api" ∧
    (check_neuvector_api c u p a).1.status ≠ DiagnosticStatus.pending := by
  simp only [check_neuvector_api]
  split_ifs
  · simp
  · cases a <;> simp

theorem check_demo_namespace_shape (c : Config) (p : ProcOutcome) :
    (check_demo_namespace c p).id = "demo-namespace" ∧
    (check_demo_namespace c p).status ≠ DiagnosticStatus.pending := by
  cases p with
  | exn e => simp [check_demo_namespace]
  | done out err rc =>
    simp only [check_demo_namespace]
    split_ifs <;> simp

theorem check_demo_pods_shape (p : ProcOutcome) :
    (check_demo_pods p).id = "demo-pods" ∧
    (check_demo_pods p).status ≠ DiagnosticStatus.pending := by
  cases p with
  | exn e => simp [check_demo_pods]
  | done out err rc =>
    simp only [check_demo_pods]
    split_ifs <;> simp

theorem check_neuvector_groups_shape (c : Config) (r : Except String (List String)) :
    (check_neuvector_groups c r).id = "neuvector-groups" ∧
    (check_neuvector_groups c r).status ≠ DiagnosticStatus.pending := by
  cases r with
  | error e => simp [check_neuvector_groups]
  | ok gs =>
    simp only [check_neuvector_groups]
    split_ifs <;> simp

theorem check_process_profiles_shape (r : Except String (List GroupProfileOutcome)) :
    (check_process_profiles r).id = "process-profiles" ∧
    (check_process_profiles r).status ≠ DiagnosticStatus.pending := by
  cases r with
  | error e => simp [check_process_profiles]
  | ok gs =>
    simp only [check_process_profiles]
    split_ifs <;> simp

theorem check_dlp_sensors_shape (r : Except String (List String)) :
    (check_dlp_sensors r).id = "dlp-sensors" ∧
    (check_dlp_sensors r).status ≠ DiagnosticStatus.pending := by
  cases r with
  | error e => simp [check_dlp_sensors]
  | ok ss =>
    simp only [check_dlp_sensors]
    split_ifs <;> simp

theorem check_admission_control_shape (r : Except String (Bool × String)) :
    (check_admission_control r).id = "admission-control" ∧
    (check_admission_control r).status ≠ DiagnosticStatus.pending := by
  cases r with
  | error e => simp [check_admission_control]
  | ok st =>
    simp only [check_admission_control]
    split_ifs <;> simp

/-- No check produced by a diagnostics run carries status `pending`. -/
theorem allChecks_nonpending (c : Config) (o : DiagOracles) :
    ∀ ch ∈ allChecks c o, ch.status ≠ DiagnosticStatus.pending := by
  intro ch hch
  unfold allChecks phase12Checks phase3Checks at hch
  by_cases h1 : (check_kubernetes_cluster o.k8s).status = DiagnosticStatus.error <;>
    by_cases h2 : (check_neuvector_api c o.username o.password o.auth).2 = true <;>
      simp [h1, h2, skipEnvChecks, skipNvChecks, or_assoc] at hch <;>
      rcases hch with rfl | rfl | rfl | rfl | rfl | rfl | rfl | rfl <;>
      first
        | exact (check_kubernetes_cluster_shape o.k8s).2
        | exact (check_neuvector_api_shape c o.username o.password o.auth).2
        | exact (check_demo_namespace_shape c o.nsProc).2
        | exact (check_demo_pods_shape o.podsProc).2
        | exact (check_neuvector_groups_shape c o.groups).2
        | exact (check_process_profiles_shape o.profiles).2
        | exact (check_dlp_sensors_shape o.dlp).2
        | exact (check_admission_control_shape o.admission).2
        | decide

/-- `ok + warning + error` counts partition any pending-free check list. -/
theorem countStatus_partition (cs : List DiagnosticCheck)
    (h : ∀ ch ∈ cs, ch.status ≠ DiagnosticStatus.pending) :
    countStatus DiagnosticStatus.ok cs + countStatus DiagnosticStatus.warning cs +
      countStatus DiagnosticStatus.error cs = cs.length := by
  induction cs with
  | nil => rfl
  | cons x xs ih =>
    have hx := h x (List.mem_cons_self x xs)
    have ih2 := ih (fun ch hch => h ch (List.mem_cons_of_mem x hch))
    rcases hs : x.status
    case ok => simp only [countStatus, List.filter_cons, hs] at ih2 ⊢; simp; omega
    case warning => simp only [countStatus, List.filter_cons, hs] at ih2 ⊢; simp; omega
    case error => simp only [countStatus, List.filter_cons, hs] at ih2 ⊢; simp; omega
    case pending => exact absurd hs hx

/-! ## Claims C8-C10 -/

/-- C8 — whenever the cluster-reachability check resolves to `error`, the two
Environment-phase probes are never invoked and the third and fourth check
records of the run are the `error`/"Skipped (K8s unavailable)" placeholders. -/
theorem diagnostics_env_skipped (c : Config) (o : DiagOracles)
    (h : (check_kubernetes_cluster o.k8s).status = DiagnosticStatus.error) :
    (run_diagnostics c o).nsProbeInvoked = false
    ∧ (run_diagnostics c o).podsProbeInvoked = false
    ∧ (run_diagnostics c o).response.checks[2]? =
        some { id := "demo-namespace", name := "Demo Namespace", category := "Environment",
               status := DiagnosticStatus.error, message := "Skipped (K8s unavailable)" }
    ∧ (run_diagnostics c o).response.checks[3]? =
        some { id := "demo-pods", name := "Demo Pods", category := "Environment",
               status := DiagnosticStatus.error, message := "Skipped (K8s unavailable)" } := by
  unfold run_diagnostics allChecks phase12Checks
  rcases hnv : (check_neuvector_api c o.username o.password o.auth).2 with _ | _ <;>
    rcases hcf : o.cleanupFault with _ | e <;>
      simp [h, hnv, skipEnvChecks]

/-- Witness for C8: a concrete run whose cluster probe raised. -/
theorem diagnostics_env_skipped_witness :
    (check_kubernetes_cluster (Except.error "connection refused")).status =
        DiagnosticStatus.error ∧
    ((run_diagnostics {} ⟨Except.error "connection refused", "admin", "pw",
          AuthOutcome.exn "down", ProcOutcome.exn "skip", ProcOutcome.exn "skip",
          Except.error "skip", Except.error "skip", Except.error "skip",
          Except.error "skip", none⟩).nsProbeInvoked = false
      ∧ (run_diagnostics {} ⟨Except.error "connection refused", "admin", "pw",
          AuthOutcome.exn "down", ProcOutcome.exn "skip", ProcOutcome.exn "skip",
          Except.error "skip", Except.error "skip", Except.error "skip",
          Except.error "skip", none⟩).podsProbeInvoked = false
      ∧ (run_diagnostics {} ⟨Except.error "connection refused", "admin", "pw",
          AuthOutcome.exn "down", ProcOutcome.exn "skip", ProcOutcome.exn "skip",
          Except.error "skip", Except.error "skip", Except.error "skip",
          Except.error "skip", none⟩).response.checks[2]? =
        some { id := "demo-namespace", name := "Demo Namespace", category := "Environment",
               status := DiagnosticStatus.error, message := "Skipped (K8s unavailable)" }
      ∧ (run_diagnostics {} ⟨Except.error "connection refused", "admin", "pw",
          AuthOutcome.exn "down", ProcOutcome.exn "skip", ProcOutcome.exn "skip",
          Except.error "skip", Except.error "skip", Except.error "skip",
          Except.error "skip", none⟩).response.checks[3]? =
        some { id := "demo-pods", name := "Demo Pods", category := "Environment",
               status := DiagnosticStatus.error, message := "Skipped (K8s unavailable)" }) :=
  ⟨rfl,
   diagnostics_env_skipped {} ⟨Except.error "connection refused", "admin", "pw",
     AuthOutcome.exn "down", ProcOutcome.exn "skip", ProcOutcome.exn "skip",
     Except.error "skip", Except.error "skip", Except.error "skip",
     Except.error "skip", none⟩ rfl⟩

/-- C9 counterexample — a run in which phase 3 ran and the API cleanup then
raised: the response carries the eight check records already produced, but
its summary reports `total = 0`, so the total does not equal the number of
check records produced in the run. -/
theorem diagnostics_summary_counterexample :
    (run_diagnostics {} ⟨Except.ok ⟨"k3s", true, 2, none⟩, "admin", "pw",
        AuthOutcome.success, ProcOutcome.done "namespace/neuvector-demo" "" 0,
        ProcOutcome.done "espion1-abc cible1-def" "" 0,
        Except.ok ["nv.espion1.neuvector-demo", "nv.cible1.neuvector-demo"],
        Except.ok [Except.ok 3, Except.ok 2], Except.ok ["sensor.creditcard"],
        Except.ok (true, "protect"),
        some "connection reset by peer"⟩).response.checks.length = 8
    ∧ (run_diagnostics {} ⟨Except.ok ⟨"k3s", true, 2, none⟩, "admin", "pw",
        AuthOutcome.success, ProcOutcome.done "namespace/neuvector-demo" "" 0,
        ProcOutcome.done "espion1-abc cible1-def" "" 0,
        Except.ok ["nv.espion1.neuvector-demo", "nv.cible1.neuvector-demo"],
        Except.ok [Except.ok 3, Except.ok 2], Except.ok ["sensor.creditcard"],
        Except.ok (true, "protect"),
        some "connection reset by peer"⟩).response.summary.total = 0 := by
  constructor <;> rfl

/-- C9 amended — on every diagnostics run that returns `success = true`, the
summary counts `ok + warning + error` equal the summary total, and the total
equals the number of check records produced (including skipped placeholders);
on the orchestrator fault path (an exception during API cleanup) the response
instead carries the already-produced records with an all-zero summary. -/
theorem diagnostics_summary_consistent (c : Config) (o : DiagOracles)
    (h : (run_diagnostics c o).response.success = true) :
    (run_diagnostics c o).response.summary.ok + (run_diagnostics c o).response.summary.warning
        + (run_diagnostics c o).response.summary.error
      = (run_diagnostics c o).response.summary.total
    ∧ (run_diagnostics c o).response.summary.total
      = (run_diagnostics c o).response.checks.length := by
  have hpart := countStatus_partition (allChecks c o) (allChecks_nonpending c o)
  unfold run_diagnostics at h ⊢
  rcases hnv : (check_neuvector_api c o.username o.password o.auth).2 with _ | _ <;>
    rcases hcf : o.cleanupFault with _ | e <;>
      simp [hnv, hcf, mkSummary] at h ⊢ <;>
      exact hpart

/-- Witness for C9 amended: a fully healthy concrete run. -/
theorem diagnostics_summary_consistent_witness :
    (run_diagnostics {} ⟨Except.ok ⟨"k3s", true, 2, none⟩, "admin", "pw",
        AuthOutcome.success, ProcOutcome.done "namespace/neuvector-demo" "" 0,
        ProcOutcome.done "espion1-abc cible1-def" "" 0,
        Except.ok ["nv.espion1.neuvector-demo", "nv.cible1.neuvector-demo"],
        Except.ok [Except.ok 3, Except.ok 2], Except.ok ["sensor.creditcard"],
        Except.ok (true, "protect"), none⟩).response.success = true
    ∧ ((run_diagnostics {} ⟨Except.ok ⟨"k3s", true, 2, none⟩, "admin", "pw",
          AuthOutcome.success, ProcOutcome.done "namespace/neuvector-demo" "" 0,
          ProcOutcome.done "espion1-abc cible1-def" "" 0,
          Except.ok ["nv.espion1.neuvector-demo", "nv.cible1.neuvector-demo"],
          Except.ok [Except.ok 3, Except.ok 2], Except.ok ["sensor.creditcard"],
          Except.ok (true, "protect"), none⟩).response.summary.ok
        + (run_diagnostics {} ⟨Except.ok ⟨"k3s", true, 2, none⟩, "admin", "pw",
          AuthOutcome.success, ProcOutcome.done "namespace/neuvector-demo" "" 0,
          ProcOutcome.done "espion1-abc cible1-def" "" 0,
          Except.ok ["nv.espion1.neuvector-demo", "nv.cible1.neuvector-demo"],
          Except.ok [Except.ok 3, Except.ok 2], Except.ok ["sensor.creditcard"],
          Except.ok (true, "protect"), none⟩).response.summary.warning
        + (run_diagnostics {} ⟨Except.ok ⟨"k3s", true, 2, none⟩, "admin", "pw",
          AuthOutcome.success, ProcOutcome.done "namespace/neuvector-demo" "" 0,
          ProcOutcome.done "espion1-abc cible1-def" "" 0,
          Except.ok ["nv.espion1.neuvector-demo", "nv.cible1.neuvector-demo"],
          Except.ok [Except.ok 3, Except.ok 2], Except.ok ["sensor.creditcard"],
          Except.ok (true, "protect"), none⟩).response.summary.error
      = (run_diagnostics {} ⟨Except.ok ⟨"k3s", true, 2, none⟩, "admin", "pw",
          AuthOutcome.success, ProcOutcome.done "namespace/neuvector-demo" "" 0,
          ProcOutcome.done "espion1-abc cible1-def" "" 0,
          Except.ok ["nv.espion1.neuvector-demo", "nv.cible1.neuvector-demo"],
          Except.ok [Except.ok 3, Except.ok 2], Except.ok ["sensor.creditcard"],
          Except.ok (true, "protect"), none⟩).response.summary.total
      ∧ (run_diagnostics {} ⟨Except.ok ⟨"k3s", true, 2, none⟩, "admin", "pw",
          AuthOutcome.success, ProcOutcome.done "namespace/neuvector-demo" "" 0,
          ProcOutcome.done "espion1-abc cible1-def" "" 0,
          Except.ok ["nv.espion1.neuvector-demo", "nv.cible1.neuvector-demo"],
          Except.ok [Except.ok 3, Except.ok 2], Except.ok ["sensor.creditcard"],
          Except.ok (true, "protect"), none⟩).response.summary.total
      = (run_diagnostics {} ⟨Except.ok ⟨"k3s", true, 2, none⟩, "admin", "pw",
          AuthOutcome.success, ProcOutcome.done "namespace/neuvector-demo" "" 0,
          ProcOutcome.done "espion1-abc cible1-def" "" 0,
          Except.ok ["nv.espion1.neuvector-demo", "nv.cible1.neuvector-demo"],
          Except.ok [Except.ok 3, Except.ok 2], Except.ok ["sensor.creditcard"],
          Except.ok (true, "protect"), none⟩).response.checks.length) :=
  ⟨rfl,
   diagnostics_summary_consistent {} ⟨Except.ok ⟨"k3s", true, 2, none⟩, "admin", "pw",
     AuthOutcome.success, ProcOutcome.done "namespace/neuvector-demo" "" 0,
     ProcOutcome.done "espion1-abc cible1-def" "" 0,
     Except.ok ["nv.espion1.neuvector-demo", "nv.cible1.neuvector-demo"],
     Except.ok [Except.ok 3, Except.ok 2], Except.ok ["sensor.creditcard"],
     Except.ok (true, "protect"), none⟩ rfl⟩

/-- C10 — every diagnostics run that does not take the orchestrator fault
path returns `success = true` with exactly 8 check records whose ids are, in
order: kubernetes, neuvector-api, demo-namespace, demo-pods,
neuvector-groups, process-profiles, dlp-sensors, admission-control —
regardless of which phases were skipped. -/
theorem diagnostics_fixed_check_set (c : Config) (o : DiagOracles)
    (h : (run_diagnostics c o).faulted = false) :
    (run_diagnostics c o).response.success = true
    ∧ (run_diagnostics c o).response.checks.length = 8
    ∧ (run_diagnostics c o).response.checks.map (fun ch => ch.id) =
        ["kubernetes", "neuvector-api", "demo-namespace", "demo-pods",
         "neuvector-groups", "process-profiles", "dlp-sensors", "admission-control"] := by
  have hk := (check_kubernetes_cluster_shape o.k8s).1
  have hnv1 := (check_neuvector_api_shape c o.username o.password o.auth).1
  have hns := (check_demo_namespace_shape c o.nsProc).1
  have hp := (check_demo_pods_shape o.podsProc).1
  have hg := (check_neuvector_groups_shape c o.groups).1
  have hpr := (check_process_profiles_shape o.profiles).1
  have hd := (check_dlp_sensors_shape o.dlp).1
  have ha := (check_admission_control_shape o.admission).1
  unfold run_diagnostics allChecks phase12Checks phase3Checks at h ⊢
  rcases hnv : (check_neuvector_api c o.username o.password o.auth).2 with _ | _ <;>
    rcases hcf : o.cleanupFault with _ | e <;>
      by_cases h1 : (check_kubernetes_cluster o.k8s).status = DiagnosticStatus.error <;>
        simp [hnv, hcf, h1, skipEnvChecks, skipNvChecks,
          hk, hnv1, hns, hp, hg, hpr, hd, ha] at h ⊢

/-- Witness for C10: a concrete faultless run with phase 3 skipped. -/
theorem diagnostics_fixed_check_set_witness :
    (run_diagnostics {} ⟨Except.ok ⟨"k3s", true, 2, none⟩, "admin", "",
        AuthOutcome.exn "no creds", ProcOutcome.done "" "" 1,
        ProcOutcome.done "" "" 1, Except.error "skip", Except.error "skip",
        Except.error "skip", Except.error "skip", none⟩).faulted = false
    ∧ ((run_diagnostics {} ⟨Except.ok ⟨"k3s", true, 2, none⟩, "admin", "",
          AuthOutcome.exn "no creds", ProcOutcome.done "" "" 1,
          ProcOutcome.done "" "" 1, Except.error "skip", Except.error "skip",
          Except.error "skip", Except.error "skip", none⟩).response.success = true
      ∧ (run_diagnostics {} ⟨Except.ok ⟨"k3s", true, 2, none⟩, "admin", "",
          AuthOutcome.exn "no creds", ProcOutcome.done "" "" 1,
          ProcOutcome.done "" "" 1, Except.error "skip", Except.error "skip",
          Except.error "skip", Except.error "skip", none⟩).response.checks.length = 8
      ∧ (run_diagnostics {} ⟨Except.ok ⟨"k3s", true, 2, none⟩, "admin", "",
          AuthOutcome.exn "no creds", ProcOutcome.done "" "" 1,
          ProcOutcome.done "" "" 1, Except.error "skip", Except.error "skip",
          Except.error "skip", Except.error "skip", none⟩).response.checks.map
            (fun ch => ch.id) =
        ["kubernetes", "neuvector-api", "demo-namespace", "demo-pods",
         "neuvector-groups", "process-profiles", "dlp-sensors", "admission-control"]) :=
  ⟨rfl,
   diagnostics_fixed_check_set {} ⟨Except.ok ⟨"k3s", true, 2, none⟩, "admin", "",
     AuthOutcome.exn "no creds", ProcOutcome.done "" "" 1,
     ProcOutcome.done "" "" 1, Except.error "skip", Except.error "skip",
     Except.error "skip", Except.error "skip", none⟩ rfl⟩

end NVDemo
